import Mathlib

/-!
Verification of `skorch/probabilistic.py` (Gaussian Process estimators).

The file shallowly embeds the glue code of the repository: tensors are
modelled as a shape together with rational data, Python dicts as
association lists, the collaborating base framework (`NeuralNet`,
`forward_iter`, `unpack_data`, `check_is_fitted`, the predict
nonlinearity) as universally quantified inputs with the narrow contract
the spec describes, and fallible Python code as `Option`/`Except`.
-/

namespace SkorchGP

/-- A torch tensor, modelled as a shape (list of dimension sizes) together
with its flattened data as rational numbers. -/
structure Tensor where
  shape : List Nat
  data : List Rat
deriving DecidableEq, Repr

/-- Number of dimensions of the tensor, as in `torch.Tensor.dim()`. -/
def Tensor.dim (t : Tensor) : Nat := t.shape.length

/-- Sum of all entries. -/
def Tensor.sum (t : Tensor) : Rat := t.data.foldl (fun a x => a + x) 0

/-- Mean over all entries, as in `torch.Tensor.mean()`: a zero-dimensional
(scalar) tensor. -/
def Tensor.mean (t : Tensor) : Tensor :=
  { shape := [], data := [t.sum / (t.data.length : Rat)] }

/-- Elementwise negation, as in unary `-` on a torch tensor. -/
def Tensor.neg (t : Tensor) : Tensor :=
  { shape := t.shape, data := t.data.map (fun x => -x) }

/-- Embedding of `GPBase.get_loss`.  The loss returned by the base
framework (`super().get_loss(...)`) is an input; the method reduces it to
its mean when it is not zero-dimensional and returns its negation. -/
def GPBase.get_loss (baseLoss : Tensor) : Tensor :=
  let loss := baseLoss
  let loss := if loss.dim != 0 then loss.mean else loss
  loss.neg

/-- A call of the user-supplied criterion constructor, recording the
keyword arguments it receives in `GPBase.initialize_criterion`. -/
structure CriterionCall (L M P : Type) where
  likelihood : L
  model : M
  params : P
deriving DecidableEq, Repr

/-- The parts of a GP estimator state that `initialize_criterion` reads
and writes: the instantiated likelihood and module, the user-supplied
criterion parameters (`get_params_for('criterion')`), and the criterion
instance, `none` before it is initialized. -/
structure GPState (L M P : Type) where
  likelihood_ : L
  module_ : M
  criterionParams : P
  criterion_ : Option (CriterionCall L M P)
deriving DecidableEq, Repr

/-- Embedding of `GPBase.initialize_criterion`: constructs the criterion
from the instantiated likelihood, the instantiated module and the
user-supplied criterion parameters. -/
def GPBase.initialize_criterion {L M P : Type} (st : GPState L M P) :
    GPState L M P :=
  { st with
    criterion_ := some
      { likelihood := st.likelihood_
        model := st.module_
        params := st.criterionParams } }

/-- Lookup in a Python dict modelled as an association list. -/
def lookupKey {V : Type} (k : String) : List (String × V) → Option V
  | [] => none
  | (k', v) :: rest => if k' = k then some v else lookupKey k rest

/-- Assignment `d[k] = v` on a Python dict modelled as an association
list: replaces the first binding of `k`, or appends one. -/
def setKey {V : Type} (k : String) (v : V) :
    List (String × V) → List (String × V)
  | [] => [(k, v)]
  | (k', v') :: rest =>
    if k' = k then (k', v) :: rest else (k', v') :: setKey k v rest

/-- The dict key used by `train_step_single`. -/
def yPredKey : String := "y_pred"

/-- Embedding of `GPBase.train_step_single`.  The step dict produced by
the base framework (`super().train_step_single(...)`) is an input; the
method overwrites its `y_pred` entry with the likelihood applied to it
(`none` models the `KeyError` Python would raise were the key absent). -/
def GPBase.train_step_single {V : Type} (likelihood_ : V → V)
    (baseStep : List (String × V)) : Option (List (String × V)) :=
  match lookupKey yPredKey baseStep with
  | none => none
  | some yp => some (setKey yPredKey (likelihood_ yp) baseStep)

theorem lookupKey_setKey_same {V : Type} (k : String) (v : V)
    (l : List (String × V)) : lookupKey k (setKey k v l) = some v := by
  induction l with
  | nil => simp [lookupKey, setKey]
  | cons hd tl ih =>
    obtain ⟨k', v'⟩ := hd
    by_cases h : k' = k
    · simp [lookupKey, setKey, h]
    · simp [lookupKey, setKey, h, ih]

theorem lookupKey_setKey_other {V : Type} (k k' : String) (v : V)
    (l : List (String × V)) (hkk : k' ≠ k) :
    lookupKey k' (setKey k v l) = lookupKey k' l := by
  induction l with
  | nil => simp [lookupKey, setKey, hkk.symm]
  | cons hd tl ih =>
    obtain ⟨k0, v0⟩ := hd
    by_cases h : k0 = k
    · subst h
      simp [lookupKey, setKey, hkk.symm]
    · simp [lookupKey, setKey, h, ih]

/-- C1: `GPBase.get_loss` returns the negation of the base framework's
loss; a non-scalar base loss is first reduced to its mean, and the result
is always a zero-dimensional (scalar) tensor. -/
theorem GPBase.get_loss_spec (baseLoss : Tensor) :
    GPBase.get_loss baseLoss =
      Tensor.neg (if baseLoss.dim ≠ 0 then baseLoss.mean else baseLoss) ∧
    (GPBase.get_loss baseLoss).dim = 0 := by
  constructor
  · by_cases h : baseLoss.dim = 0 <;>
      simp [GPBase.get_loss, h]
  · by_cases h : baseLoss.dim = 0
    · have hsh : baseLoss.shape = [] := List.length_eq_zero.mp h
      simp [GPBase.get_loss, h, Tensor.neg, Tensor.dim, hsh]
    · have hsh : baseLoss.shape ≠ [] := by
        intro hh
        exact h (by simp [Tensor.dim, hh])
      simp [GPBase.get_loss, h, Tensor.neg, Tensor.mean, Tensor.dim, hsh]

/-- C3: after `GPBase.initialize_criterion`, the criterion is constructed
with exactly the instantiated likelihood passed as `likelihood`, the
instantiated module passed as `model`, and the user-supplied criterion
parameters; likelihood and module themselves are untouched. -/
theorem GPBase.initialize_criterion_spec {L M P : Type}
    (st : GPState L M P) :
    (GPBase.initialize_criterion st).criterion_ =
      some { likelihood := st.likelihood_
             model := st.module_
             params := st.criterionParams } ∧
    (GPBase.initialize_criterion st).likelihood_ = st.likelihood_ ∧
    (GPBase.initialize_criterion st).module_ = st.module_ := by
  refine ⟨rfl, rfl, rfl⟩

/-- C5: `GPBase.train_step_single` returns the base framework's step
dict with only the `y_pred` entry replaced by the likelihood applied to
the base prediction; every other entry, in particular `loss`, is looked
up unchanged. -/
theorem GPBase.train_step_single_spec {V : Type} (likelihood_ : V → V)
    (baseStep : List (String × V)) (yp : V)
    (h : lookupKey yPredKey baseStep = some yp) :
    ∃ step, GPBase.train_step_single likelihood_ baseStep = some step ∧
      lookupKey yPredKey step = some (likelihood_ yp) ∧
      ∀ k, k ≠ yPredKey → lookupKey k step = lookupKey k baseStep := by
  refine ⟨setKey yPredKey (likelihood_ yp) baseStep, ?_, ?_, ?_⟩
  · simp [GPBase.train_step_single, h]
  · exact lookupKey_setKey_same _ _ _
  · intro k hk
    exact lookupKey_setKey_other _ _ _ _ hk

/-- Witness for C5 at a concrete two-entry step dict. -/
theorem GPBase.train_step_single_spec_witness :
    lookupKey yPredKey [("loss", (5 : Nat)), (yPredKey, 7)] = some 7 ∧
    ∃ step,
      GPBase.train_step_single (fun v => v + 1)
        [("loss", (5 : Nat)), (yPredKey, 7)] = some step ∧
      lookupKey yPredKey step = some 8 ∧
      ∀ k, k ≠ yPredKey →
        lookupKey k step = lookupKey k [("loss", (5 : Nat)), (yPredKey, 7)] := by
  refine ⟨by decide, ?_⟩
  exact GPBase.train_step_single_spec (fun v => v + 1)
    [("loss", (5 : Nat)), (yPredKey, 7)] 7 (by decide)

/-- Exceptions the embedded Python code can raise. -/
inductive GPError where
  | notFittedError
  | notImplementedError (msg : String)
  | attributeError (msg : String)
deriving DecidableEq, Repr

/-- Output of `self.infer(Xi)`: a single distribution, or a tuple whose
first element is the distribution and whose remaining elements are
further outputs. -/
inductive InferOut (D V : Type) where
  | single (d : D)
  | multi (d : D) (rest : List V)
deriving DecidableEq, Repr

/-- Embedding of `GPBase.evaluation_step`.  The fitted check
(`check_is_fitted`, which raises `NotFittedError` for an uninitialized
estimator) is modelled by the `fitted` flag; the batch is unpacked into
input and target, and `infer` together with the instantiated likelihood
are inputs supplied by the base framework and the user module. -/
def GPBase.evaluation_step {X Y D V : Type} (fitted : Bool)
    (likelihood_ : D → D) (infer : X → InferOut D V) (batch : X × Y) :
    Except GPError (InferOut D V) :=
  if fitted = false then Except.error GPError.notFittedError
  else
    match infer batch.1 with
    | .single d => Except.ok (.single (likelihood_ d))
    | .multi d rest => Except.ok (.multi (likelihood_ d) rest)

/-- Modelled from the spec: the base framework's `forward_iter` (part of
the wrapped training framework, treated as an external collaborator with
a narrow contract) yields one inference output per batch of the input
data. -/
def forward_iter {B D : Type} (evalStep : B → D) (batches : List B) :
    List D :=
  batches.map evalStep

/-- Embedding of `GPBase.forward`: `list(self.forward_iter(X, ...))`.
The distributions cannot be concatenated, so the list itself is
returned. -/
def GPBase.forward {B D : Type} (evalStep : B → D) (batches : List B) :
    List D :=
  forward_iter evalStep batches

/-- A posterior distribution as produced by a GP module, reduced to the
two statistics the prediction code reads. -/
structure Posterior where
  mean : List Rat
  stddev : List Rat
deriving DecidableEq, Repr

/-- One item yielded by `forward_iter` in the prediction methods: either
a posterior distribution, or a tuple whose first element is the
posterior. -/
inductive FIItem where
  | single (p : Posterior)
  | tuple (p : Posterior) (rest : List (List Rat))
deriving DecidableEq, Repr

/-- The expression `yi[0] if isinstance(yi, tuple) else yi`. -/
def posteriorOf : FIItem → Posterior
  | .single p => p
  | .tuple p _ => p

/-- Message of the `NotImplementedError` raised for `return_cov=True`. -/
def returnCovMsg : String :=
  "The \x27return_cov\x27 argument is not supported. Please try: \x27posterior = next(gpr.forward_iter(X)); posterior.covariance_matrix\x27."

/-- The accumulation loop of `_GPRegressorPredictMixin.predict`: one
iteration per `forward_iter` item, appending the nonlinearity of the
posterior mean to the first accumulator and, when `return_std` is set,
the nonlinearity of the posterior stddev to the second. -/
def predictLoop (nonlin : List Rat → List Rat) (return_std : Bool) :
    List FIItem → List (List Rat) × List (List Rat) →
      List (List Rat) × List (List Rat)
  | [], acc => acc
  | yi :: rest, acc =>
    let posterior := posteriorOf yi
    let y_preds := acc.1 ++ [nonlin posterior.mean]
    let acc' :=
      if return_std = false then (y_preds, acc.2)
      else (y_preds, acc.2 ++ [nonlin posterior.stddev])
    predictLoop nonlin return_std rest acc'

/-- Embedding of `_GPRegressorPredictMixin.predict`: rejects
`return_cov`, loops over the `forward_iter` items, concatenates the
collected means and, when `return_std` is set, the collected standard
deviations. -/
def _GPRegressorPredictMixin.predict (nonlin : List Rat → List Rat)
    (fi : List FIItem) (return_std return_cov : Bool) :
    Except GPError (List Rat × Option (List Rat)) :=
  if return_cov then Except.error (GPError.notImplementedError returnCovMsg)
  else
    let acc := predictLoop nonlin return_std fi ([], [])
    let y_pred := acc.1.flatten
    if return_std = false then Except.ok (y_pred, none)
    else Except.ok (y_pred, some acc.2.flatten)

/-- The accumulation loop of `GPBinaryClassifier.predict_proba`. -/
def probaLoop (nonlin : List Rat → List Rat) :
    List FIItem → List (List Rat) → List (List Rat)
  | [], acc => acc
  | yi :: rest, acc =>
    probaLoop nonlin rest (acc ++ [nonlin (posteriorOf yi).mean])

/-- Embedding of `GPBinaryClassifier.predict_proba`: collects the
nonlinearity of each batch posterior mean, concatenates along axis 0,
reshapes to a column and hstacks `1 - y_proba` with `y_proba`. -/
def GPBinaryClassifier.predict_proba (nonlin : List Rat → List Rat)
    (fi : List FIItem) : List (Rat × Rat) :=
  let y_probas := probaLoop nonlin fi []
  let y_proba := y_probas.flatten
  y_proba.map (fun p => (1 - p, p))

/-- Embedding of `GPBinaryClassifier.predict`:
`(y_proba[:, 1] > self.threshold).astype(uint8)`. -/
def GPBinaryClassifier.predict (nonlin : List Rat → List Rat)
    (fi : List FIItem) (threshold : Rat) : List Nat :=
  (GPBinaryClassifier.predict_proba nonlin fi).map
    (fun row => if threshold < row.2 then 1 else 0)

/-- The Python class names of the four estimator classes. -/
inductive GPClassName where
  | gpBase
  | exactGPRegressor
  | gpRegressor
  | gpBinaryClassifier
deriving DecidableEq, Repr

/-- `self.__class__.__name__` of each estimator class. -/
def GPClassName.pyName : GPClassName → String
  | .gpBase => "GPBase"
  | .exactGPRegressor => "ExactGPRegressor"
  | .gpRegressor => "GPRegressor"
  | .gpBinaryClassifier => "GPBinaryClassifier"

/-- Message head of the `AttributeError` raised by
`GPBase.predict_proba`. -/
def predictProbaMsgHead : String :=
  "\x27predict_proba\x27 is not implemented for "

/-- Embedding of `GPBase.predict_proba`: unconditionally raises an
`AttributeError` naming the class of the estimator. -/
def GPBase.predict_proba (cls : GPClassName) :
    Except GPError (List (Rat × Rat)) :=
  Except.error (GPError.attributeError (predictProbaMsgHead ++ cls.pyName))

/-- Method resolution of `predict_proba` across the class hierarchy:
`GPBinaryClassifier` is the only class overriding `GPBase.predict_proba`
(the mixin `_GPRegressorPredictMixin` defines only `predict`), so
`ExactGPRegressor` and `GPRegressor` inherit the raising base
implementation.  The `fitted` flag is threaded through to record that
the base implementation never consults it. -/
def resolvePredictProba (cls : GPClassName) (fitted : Bool)
    (nonlin : List Rat → List Rat) (fi : List FIItem) :
    Except GPError (List (Rat × Rat)) :=
  match cls with
  | .gpBinaryClassifier =>
    Except.ok (GPBinaryClassifier.predict_proba nonlin fi)
  | _ => GPBase.predict_proba cls

theorem predictLoop_spec (nonlin : List Rat → List Rat) (rs : Bool)
    (fi : List FIItem) (a b : List (List Rat)) :
    predictLoop nonlin rs fi (a, b) =
      (a ++ fi.map (fun yi => nonlin (posteriorOf yi).mean),
       if rs = false then b
       else b ++ fi.map (fun yi => nonlin (posteriorOf yi).stddev)) := by
  induction fi generalizing a b with
  | nil => cases rs <;> simp [predictLoop]
  | cons hd tl ih => cases rs <;> simp [predictLoop, ih]

theorem map_snd_pairs (l : List Rat) :
    (l.map (fun p => (1 - p, p))).map Prod.snd = l := by
  induction l with
  | nil => rfl
  | cons hd tl ih => simp [ih]

theorem map_fst_pairs (l : List Rat) :
    (l.map (fun p => (1 - p, p))).map Prod.fst = l.map (fun p => 1 - p) := by
  induction l with
  | nil => rfl
  | cons hd tl ih => simp [ih]

theorem probaLoop_spec (nonlin : List Rat → List Rat) (fi : List FIItem)
    (acc : List (List Rat)) :
    probaLoop nonlin fi acc =
      acc ++ fi.map (fun yi => nonlin (posteriorOf yi).mean) := by
  induction fi generalizing acc with
  | nil => simp [probaLoop]
  | cons hd tl ih => simp [probaLoop, ih]

/-- C6: `GPBase.evaluation_step` raises the framework's not-fitted error
when the estimator is not fitted, whatever `infer` would do; when it is
fitted it returns the likelihood applied to the result of `infer` on the
batch input, only to the first element of a tuple, the rest passed
through unchanged. -/
theorem GPBase.evaluation_step_spec {X Y D V : Type}
    (likelihood_ : D → D) (infer : X → InferOut D V) (batch : X × Y) :
    GPBase.evaluation_step false likelihood_ infer batch =
      Except.error GPError.notFittedError ∧
    GPBase.evaluation_step true likelihood_ infer batch =
      Except.ok (match infer batch.1 with
        | .single d => InferOut.single (likelihood_ d)
        | .multi d rest => InferOut.multi (likelihood_ d) rest) := by
  constructor
  · rfl
  · cases h : infer batch.1 <;> simp [GPBase.evaluation_step, h]

/-- C2: `GPBase.forward` returns the list of the outputs of
`forward_iter`, one per batch (a singleton when a single batch is used),
without any concatenation. -/
theorem GPBase.forward_spec {B D : Type} (evalStep : B → D)
    (batches : List B) :
    GPBase.forward evalStep batches = forward_iter evalStep batches ∧
    (GPBase.forward evalStep batches).length = batches.length ∧
    GPBase.forward evalStep batches = batches.map evalStep ∧
    ∀ b : B, GPBase.forward evalStep [b] = [evalStep b] := by
  refine ⟨rfl, ?_, rfl, fun b => rfl⟩
  simp [GPBase.forward, forward_iter]

/-- C4: for a fitted GP regressor, `predict` with `return_std=False`
returns the concatenation, in batch order, of the predict nonlinearity
applied to each batch posterior mean; with `return_std=True` it returns
that together with the analogous concatenation for the standard
deviations. -/
theorem predictMixin.predict_spec (nonlin : List Rat → List Rat)
    (fi : List FIItem) :
    _GPRegressorPredictMixin.predict nonlin fi false false =
      Except.ok
        ((fi.map (fun yi => nonlin (posteriorOf yi).mean)).flatten, none) ∧
    _GPRegressorPredictMixin.predict nonlin fi true false =
      Except.ok
        ((fi.map (fun yi => nonlin (posteriorOf yi).mean)).flatten,
         some ((fi.map (fun yi => nonlin (posteriorOf yi).stddev)).flatten)) := by
  constructor <;>
    simp [_GPRegressorPredictMixin.predict, predictLoop_spec]

/-- C10: `predict` with `return_cov=True` raises `NotImplementedError`
whatever the forward results would be (no inference is consumed and the
result does not depend on it), for either value of `return_std`. -/
theorem predictMixin.predict_return_cov_spec
    (nonlin : List Rat → List Rat) (fi : List FIItem)
    (return_std : Bool) :
    _GPRegressorPredictMixin.predict nonlin fi return_std true =
      Except.error (GPError.notImplementedError returnCovMsg) := by
  simp [_GPRegressorPredictMixin.predict]

/-- C8: every row of `GPBinaryClassifier.predict_proba` sums to 1, its
second column is the concatenation of the nonlinearity of the batch
posterior means, its first column is one minus the second, and `predict`
is 1 exactly where the second column strictly exceeds the threshold. -/
theorem GPBinaryClassifier.predict_proba_spec
    (nonlin : List Rat → List Rat) (fi : List FIItem) (threshold : Rat) :
    ((GPBinaryClassifier.predict_proba nonlin fi).all
      (fun row => row.1 + row.2 == 1)) = true ∧
    (GPBinaryClassifier.predict_proba nonlin fi).map Prod.snd =
      (fi.map (fun yi => nonlin (posteriorOf yi).mean)).flatten ∧
    (GPBinaryClassifier.predict_proba nonlin fi).map Prod.fst =
      ((GPBinaryClassifier.predict_proba nonlin fi).map Prod.snd).map
        (fun p => 1 - p) ∧
    GPBinaryClassifier.predict nonlin fi threshold =
      (GPBinaryClassifier.predict_proba nonlin fi).map
        (fun row => if threshold < row.2 then 1 else 0) := by
  refine ⟨?_, ?_, ?_, rfl⟩
  · rw [List.all_eq_true]
    intro row hrow
    simp [GPBinaryClassifier.predict_proba] at hrow
    obtain ⟨p, hp, a, ha, rfl⟩ := hrow
    simp [beq_iff_eq]
  · simp only [GPBinaryClassifier.predict_proba, map_snd_pairs]
    simp [probaLoop_spec]
  · simp only [GPBinaryClassifier.predict_proba, map_snd_pairs,
      map_fst_pairs]

/-- C9: for every estimator class other than `GPBinaryClassifier`,
`predict_proba` raises an `AttributeError` naming the class, fitted or
not; `GPBinaryClassifier` alone overrides it with a working
implementation. -/
theorem predict_proba_dispatch_spec (fitted : Bool)
    (nonlin : List Rat → List Rat) (fi : List FIItem) :
    (∀ cls, cls ≠ GPClassName.gpBinaryClassifier →
      resolvePredictProba cls fitted nonlin fi =
        Except.error (GPError.attributeError
          (predictProbaMsgHead ++ cls.pyName))) ∧
    resolvePredictProba GPClassName.gpBinaryClassifier fitted nonlin fi =
      Except.ok (GPBinaryClassifier.predict_proba nonlin fi) := by
  constructor
  · intro cls h
    cases cls
    · rfl
    · rfl
    · rfl
    · exact absurd rfl h
  · rfl

/-- Witness for C9 at the concrete class `GPBase` with identity
nonlinearity and an empty forward-iteration. -/
theorem predict_proba_dispatch_spec_witness :
    resolvePredictProba GPClassName.gpBase false (fun x => x) [] =
      Except.error (GPError.attributeError
        (predictProbaMsgHead ++ GPClassName.gpBase.pyName)) ∧
    resolvePredictProba GPClassName.gpBinaryClassifier false
        (fun x => x) [] =
      Except.ok (GPBinaryClassifier.predict_proba (fun x => x) []) := by
  refine ⟨?_, ?_⟩
  · exact (predict_proba_dispatch_spec false (fun x => x) []).1
      GPClassName.gpBase (by decide)
  · exact (predict_proba_dispatch_spec false (fun x => x) []).2

/-! Documentation-string templating (`get_exact_gp_regr_doc`).  The
module-level text constants are transcribed verbatim from the source;
`\x27` stands for the apostrophe.  Python strings are embedded as
`List Char` and the two string operations the code uses — `str.find` and
`re.compile(...).search` with patterns of the shape
`(\n\s+)(LIT .*\n)(\s.+){1,99}` — are given an executable model. -/

def exact_gp_regr_doc_start : String :=
  "Exact Gaussian Process regressor\n\n    Use this specifically if you want to perform an exact solution to the\n    Gaussian Process. This implies that the module should by a\n    :class:`~gpytorch.models.ExactGP` module and you cannot use batching (i.e.\n    batch size should be -1).\n\n"

def exact_gp_regr_module_text : String :=
  "\n\n    Module : gpytorch.models.ExactGP (class or instance)\n      The module needs to return a\n      :class:`~gpytorch.distributions.MultivariateNormal` distribution.\n\n"

def exact_gp_regr_criterion_text : String :=
  "\n\n    likelihood : gpytorch.likelihoods.GaussianLikelihood (class or instance)\n      The likelihood used for the exact GP regressor. Usually doesn\x27t need to be\n      changed.\n\n    criterion : gpytorch.mlls.ExactMarginalLogLikelihood\n      The objective function to learn the posterior of of the GP regressor.\n      Usually doesn\x27t need to be changed.\n\n"

def exact_gp_regr_batch_size_text : String :=
  "\n\n    batch_size : int (default=-1)\n      Mini-batch size. For exact GPs, it must be set to -1, since the exact\n      solution cannot deal with batching. To make use of batching, use\n      :class:`.GPRegressor` in conjunction with a variational strategy.\n\n"

def gp_regr_train_split_text : String :=
  "\n\n    train_split : None or callable (default=None)\n      If None, there is no train/validation split. Else, train_split should be a\n      function or callable that is called with X and y data and should return\n      the tuple ``dataset_train, dataset_valid``. The validation data may be\n      None. There is no default train split for GP regressors because random\n      splitting is typically not desired, e.g. because there is a temporal\n      relationship between samples.\n\n"

def gp_likelihood_attribute_text : String :=
  "\n\n    likelihood_: torch module (instance)\n      The instantiated likelihood.\n\n"

/-- The header searched by `doc.find` in the templating functions. -/
def paramsHeader : String := "    Parameters\n    ----------"

/-- The literal segments of the four templating regexes. -/
def litModule : List Char := "module ".data

def litCriterion : List Char := "criterion ".data

def litBatchSize : List Char := "batch_size ".data

def litTrainSplit : List Char := "train_split ".data

/-- Python regex `\s`, restricted to the ASCII whitespace characters the
docstrings use. -/
def isPySpace (c : Char) : Bool :=
  c = ' ' || c = '\t' || c = '\n' || c = '\r' || c = '\x0b' || c = '\x0c'

/-- Length of the maximal prefix whose characters satisfy `p`. -/
def countWhile (p : Char → Bool) : List Char → Nat
  | [] => 0
  | c :: rest => if p c then countWhile p rest + 1 else 0

/-- Number of characters consumed by the tail repetition `(\s.+){1,99}`
of the templating regexes, starting at the head of the list: each
repetition matches one whitespace character followed by a maximal
nonempty run of non-newline characters (`.` does not match a newline).
Nothing follows the repetition in the pattern, so the greedy engine
commits to maximal runs and to as many repetitions as possible, up to
`fuel` of them (99 initially). -/
def repsLen : Nat → List Char → Nat
  | 0, _ => 0
  | _, [] => 0
  | fuel + 1, c :: rest =>
    if isPySpace c then
      let d := countWhile (fun ch => !(ch = '\n')) rest
      if d = 0 then 0 else (1 + d) + repsLen fuel (rest.drop d)
    else 0

/-- Length of the match of the templating regex
`(\n\s+)(LIT .*\n)(\s.+){1,99}` anchored at the head of the list, `none`
when there is no match there.  The literal starts with a non-whitespace
letter, so the greedy `\s+` never backtracks: the maximal whitespace run
must be followed by the literal. -/
def matchLen (lit : List Char) : List Char → Option Nat
  | [] => none
  | c :: rest =>
    if c = '\n' then
      let w := countWhile isPySpace rest
      if w = 0 then none
      else
        let r1 := rest.drop w
        if lit.isPrefixOf r1 then
          let r2 := r1.drop lit.length
          let d := countWhile (fun ch => !(ch = '\n')) r2
          match r2.drop d with
          | '\n' :: r4 =>
            let rl := repsLen 99 r4
            if rl = 0 then none
            else some (1 + w + lit.length + d + 1 + rl)
          | _ => none
        else none
    else none

/-- Scan for the leftmost match of the templating regex, carrying the
absolute index of the current position. -/
def searchSpanFrom (lit : List Char) (idx : Nat) :
    List Char → Option (Nat × Nat)
  | [] => none
  | c :: rest =>
    match matchLen lit (c :: rest) with
    | some l => some (idx, idx + l)
    | none => searchSpanFrom lit (idx + 1) rest

/-- Leftmost match of the templating regex: `re.search` returns the span
of the match at the smallest starting position. -/
def searchSpan (lit s : List Char) : Option (Nat × Nat) :=
  searchSpanFrom lit 0 s

/-- Scan for the first occurrence of `needle`, carrying the absolute
index of the current position. -/
def pyFindFrom (needle : List Char) (idx : Nat) : List Char → Option Nat
  | [] => if needle.isEmpty then some idx else none
  | c :: rest =>
    if needle.isPrefixOf (c :: rest) then some idx
    else pyFindFrom needle (idx + 1) rest

/-- Python `haystack.find(needle)`: index of the first occurrence,
`none` for Python's -1. -/
def pyFind (needle s : List Char) : Option Nat :=
  pyFindFrom needle 0 s

/-- The slice `doc[doc.find(needle):]`: Python's find returns -1 when the
needle is absent, in which case the slice keeps only the last
character. -/
def pySliceFromFind (needle doc : List Char) : List Char :=
  match pyFind needle doc with
  | some i => doc.drop i
  | none => doc.drop (doc.length - 1)

/-- One templating step: search the regex with literal `lit` and splice
`repl` over the span of the match (`doc[:start] + repl + doc[end:]`);
`none` models the `AttributeError` Python raises on `None.span()` when
the search fails. -/
def replaceParam (lit repl doc : List Char) : Option (List Char) :=
  match searchSpan lit doc with
  | none => none
  | some (a, b) => some (doc.take a ++ repl ++ doc.drop b)

/-- Embedding of `get_exact_gp_regr_doc`: drop everything before the
parameters header, prepend the start text and a space, replace the
module, criterion, batch_size and train_split paragraphs, and append the
likelihood attribute text. -/
def get_exact_gp_regr_doc (doc : List Char) : Option (List Char) :=
  let tail := pySliceFromFind paramsHeader.data doc
  let doc1 := exact_gp_regr_doc_start.data ++ ' ' :: tail
  (replaceParam litModule exact_gp_regr_module_text.data doc1).bind fun doc2 =>
    (replaceParam litCriterion exact_gp_regr_criterion_text.data doc2).bind fun doc3 =>
      (replaceParam litBatchSize exact_gp_regr_batch_size_text.data doc3).bind fun doc4 =>
        (replaceParam litTrainSplit gp_regr_train_split_text.data doc4).map fun doc5 =>
          doc5 ++ gp_likelihood_attribute_text.data

/-- The document after the find-and-prepend step, given the header
position `i`. -/
def gdoc1 (doc : List Char) (i : Nat) : List Char :=
  exact_gp_regr_doc_start.data ++ ' ' :: doc.drop i

/-- The document after the module replacement, given its span. -/
def gdoc2 (doc : List Char) (i s1 e1 : Nat) : List Char :=
  (gdoc1 doc i).take s1 ++ exact_gp_regr_module_text.data ++
    (gdoc1 doc i).drop e1

/-- The document after the criterion replacement. -/
def gdoc3 (doc : List Char) (i s1 e1 s2 e2 : Nat) : List Char :=
  (gdoc2 doc i s1 e1).take s2 ++ exact_gp_regr_criterion_text.data ++
    (gdoc2 doc i s1 e1).drop e2

/-- The document after the batch_size replacement. -/
def gdoc4 (doc : List Char) (i s1 e1 s2 e2 s3 e3 : Nat) : List Char :=
  (gdoc3 doc i s1 e1 s2 e2).take s3 ++ exact_gp_regr_batch_size_text.data ++
    (gdoc3 doc i s1 e1 s2 e2).drop e3

/-- The document after the train_split replacement. -/
def gdoc5 (doc : List Char) (i s1 e1 s2 e2 s3 e3 s4 e4 : Nat) : List Char :=
  (gdoc4 doc i s1 e1 s2 e2 s3 e3).take s4 ++ gp_regr_train_split_text.data ++
    (gdoc4 doc i s1 e1 s2 e2 s3 e3).drop e4

/-- The list `p` is an initial segment of `l`. -/
def listIsPref (p l : List Char) : Prop := ∃ t, p ++ t = l

/-- The list `p` is a final segment of `l`. -/
def listIsSuff (p l : List Char) : Prop := ∃ t, t ++ p = l

theorem listIsPref_step {p l : List Char} (hp : listIsPref p l) {n : Nat}
    (hn : p.length ≤ n) (mid rest : List Char) :
    listIsPref p (l.take n ++ mid ++ rest) := by
  obtain ⟨t, rfl⟩ := hp
  refine ⟨t.take (n - p.length) ++ mid ++ rest, ?_⟩
  rw [List.take_append_eq_append_take, List.take_of_length_le hn]
  simp [List.append_assoc]

theorem listIsPref_append {p l : List Char} (hp : listIsPref p l)
    (z : List Char) : listIsPref p (l ++ z) := by
  obtain ⟨t, rfl⟩ := hp
  exact ⟨t ++ z, by simp⟩

/-- C7: for a docstring that contains the parameters header followed by
module, criterion, batch_size and train_split paragraphs matched by the
templating regexes (the hypotheses record the header position and the
four successive regex spans, each located past the prepended start
text), `get_exact_gp_regr_doc` drops everything before the header,
prepends `exact_gp_regr_doc_start` and a single space, splices the four
GP-specific replacement texts over the spans of the four matched
paragraphs, and appends `gp_likelihood_attribute_text`; the result
therefore begins with `exact_gp_regr_doc_start` followed by a space and
ends with `gp_likelihood_attribute_text`. -/
theorem get_exact_gp_regr_doc_spec (doc : List Char)
    (i s1 e1 s2 e2 s3 e3 s4 e4 : Nat)
    (hfind : pyFind paramsHeader.data doc = some i)
    (h1 : searchSpan litModule (gdoc1 doc i) = some (s1, e1))
    (h2 : searchSpan litCriterion (gdoc2 doc i s1 e1) = some (s2, e2))
    (h3 : searchSpan litBatchSize (gdoc3 doc i s1 e1 s2 e2) =
      some (s3, e3))
    (h4 : searchSpan litTrainSplit (gdoc4 doc i s1 e1 s2 e2 s3 e3) =
      some (s4, e4))
    (hs1 : exact_gp_regr_doc_start.data.length + 1 ≤ s1)
    (hs2 : exact_gp_regr_doc_start.data.length + 1 ≤ s2)
    (hs3 : exact_gp_regr_doc_start.data.length + 1 ≤ s3)
    (hs4 : exact_gp_regr_doc_start.data.length + 1 ≤ s4) :
    get_exact_gp_regr_doc doc =
      some (gdoc5 doc i s1 e1 s2 e2 s3 e3 s4 e4 ++
        gp_likelihood_attribute_text.data) ∧
    listIsPref (exact_gp_regr_doc_start.data ++ [' '])
      (gdoc5 doc i s1 e1 s2 e2 s3 e3 s4 e4 ++
        gp_likelihood_attribute_text.data) ∧
    listIsSuff gp_likelihood_attribute_text.data
      (gdoc5 doc i s1 e1 s2 e2 s3 e3 s4 e4 ++
        gp_likelihood_attribute_text.data) := by
  have hlen : (exact_gp_regr_doc_start.data ++ [' ']).length =
      exact_gp_regr_doc_start.data.length + 1 := by simp
  refine ⟨?_, ?_, ⟨_, rfl⟩⟩
  · have htail : pySliceFromFind paramsHeader.data doc = doc.drop i := by
      simp [pySliceFromFind, hfind]
    have hrp1 : replaceParam litModule exact_gp_regr_module_text.data
        (gdoc1 doc i) = some (gdoc2 doc i s1 e1) := by
      simp only [replaceParam, h1, gdoc2]
    have hrp2 : replaceParam litCriterion
        exact_gp_regr_criterion_text.data (gdoc2 doc i s1 e1) =
        some (gdoc3 doc i s1 e1 s2 e2) := by
      simp only [replaceParam, h2, gdoc3]
    have hrp3 : replaceParam litBatchSize
        exact_gp_regr_batch_size_text.data (gdoc3 doc i s1 e1 s2 e2) =
        some (gdoc4 doc i s1 e1 s2 e2 s3 e3) := by
      simp only [replaceParam, h3, gdoc4]
    have hrp4 : replaceParam litTrainSplit gp_regr_train_split_text.data
        (gdoc4 doc i s1 e1 s2 e2 s3 e3) =
        some (gdoc5 doc i s1 e1 s2 e2 s3 e3 s4 e4) := by
      simp only [replaceParam, h4, gdoc5]
    simp only [gdoc1] at hrp1
    simp only [get_exact_gp_regr_doc, htail, hrp1, hrp2, hrp3, hrp4,
      Option.some_bind, Option.map_some']
  · have base : listIsPref (exact_gp_regr_doc_start.data ++ [' '])
        (gdoc1 doc i) := ⟨doc.drop i, by simp [gdoc1]⟩
    have hp2 : listIsPref (exact_gp_regr_doc_start.data ++ [' '])
        (gdoc2 doc i s1 e1) :=
      listIsPref_step base (by rw [hlen]; exact hs1) _ _
    have hp3 : listIsPref (exact_gp_regr_doc_start.data ++ [' '])
        (gdoc3 doc i s1 e1 s2 e2) :=
      listIsPref_step hp2 (by rw [hlen]; exact hs2) _ _
    have hp4 : listIsPref (exact_gp_regr_doc_start.data ++ [' '])
        (gdoc4 doc i s1 e1 s2 e2 s3 e3) :=
      listIsPref_step hp3 (by rw [hlen]; exact hs3) _ _
    have hp5 : listIsPref (exact_gp_regr_doc_start.data ++ [' '])
        (gdoc5 doc i s1 e1 s2 e2 s3 e3 s4 e4) :=
      listIsPref_step hp4 (by rw [hlen]; exact hs4) _ _
    exact listIsPref_append hp5 _

/-- A concrete docstring with the header and the four parameter
paragraphs, exercising the templating path of
`get_exact_gp_regr_doc`. -/
def docExample : String :=
  "Intro.\n\n    Parameters\n    ----------\n    module : torch module\n      The module.\n\n    criterion : torch criterion\n      The criterion.\n\n    batch_size : int\n      The size.\n\n    train_split : callable\n      The split.\n\n    Attributes\n    ----------\n"

set_option maxRecDepth 4000 in
/-- Witness for C7 at a concrete docstring. -/
theorem get_exact_gp_regr_doc_spec_witness :
    get_exact_gp_regr_doc docExample.data =
      some (gdoc5 docExample.data 8 311 355 476 532 826 866 1080 1127 ++
        gp_likelihood_attribute_text.data) ∧
    listIsPref (exact_gp_regr_doc_start.data ++ [' '])
      (gdoc5 docExample.data 8 311 355 476 532 826 866 1080 1127 ++
        gp_likelihood_attribute_text.data) ∧
    listIsSuff gp_likelihood_attribute_text.data
      (gdoc5 docExample.data 8 311 355 476 532 826 866 1080 1127 ++
        gp_likelihood_attribute_text.data) :=
  get_exact_gp_regr_doc_spec docExample.data 8 311 355 476 532 826 866
    1080 1127 (by decide) (by decide) (by decide) (by decide) (by decide)
    (by decide) (by decide) (by decide) (by decide)

end SkorchGP
